import Mathlib

/-! BroadcastTimeHandler

A shallow embedding of `Src/BroadcastTimeHandler.cpp` (luna-sysservice): the two
local/UTC reinterpretation helpers `toLocal` and `toUtc`, the wire conversions
`toTimeT` and `toJValue`, and the three bus handlers `cbSetBroadcastTime`,
`cbGetBroadcastTime`, `cbGetEffectiveBroadcastTime`.

Values of C type `time_t` are integers; the width of `time_t` is the parameter
`sz` (its `sizeof`, in bytes).  The C library, the system clock and the
authority flag are inputs of the embedding.
-/

namespace BroadcastTimeHandler

/-! ## JSON values -/

/-- A JSON value as the handlers use it: null, a boolean, an integer number
or a string. -/
inductive JValue where
  | null : JValue
  | bool (b : Bool) : JValue
  | num (n : Int) : JValue
  | str (s : String) : JValue
  deriving DecidableEq, Repr

/-- A JSON object: its properties in insertion order. -/
structure JObject where
  fields : List (String × JValue)
  deriving DecidableEq, Repr

/-- The empty object, `pbnjson::Object()`. -/
def JObject.empty : JObject := ⟨[]⟩

/-- The call `object.put(key, value)`: sets the property, replacing an earlier
one of the same key. -/
def JObject.put (o : JObject) (key : String) (value : JValue) : JObject :=
  ⟨o.fields.filter (fun kv => kv.1 != key) ++ [(key, value)]⟩

/-- The lookup `object[key]`: the property, or null when it is not there. -/
def JObject.get (o : JObject) (key : String) : JValue :=
  (o.fields.lookup key).getD JValue.null

/-- The library conversion `value.asNumber<intN_t>()` for `N = bits`: a number
in the range of the target type is returned as it is, a number outside is
saturated to the nearest bound, and a value that is not a number gives 0. -/
def asNumber (bits : Nat) : JValue → Int
  | JValue.num n =>
      if n < -(2 ^ (bits - 1)) then -(2 ^ (bits - 1))
      else if 2 ^ (bits - 1) ≤ n then 2 ^ (bits - 1) - 1
      else n
  | _ => 0

/-! ## Machine integers -/

/-- The value `t` is representable in a signed `time_t` of `sz` bytes. -/
def isTimeT (sz : Nat) (t : Int) : Prop :=
  -(2 ^ (8 * sz - 1)) ≤ t ∧ t < 2 ^ (8 * sz - 1)

instance (sz : Nat) (t : Int) : Decidable (isTimeT sz t) := by
  unfold isTimeT
  infer_instance

/-- The conversion of an integer to a signed integer type of `bits` bits
(`static_cast<intN_t>`, and the implicit conversion of a return value):
reduction modulo `2 ^ bits` into the signed range. -/
def staticCast (bits : Nat) (v : Int) : Int :=
  (v + 2 ^ (bits - 1)) % 2 ^ bits - 2 ^ (bits - 1)

/-! ## The C library -/

/-- The broken-down time `struct tm`. -/
structure Tm where
  tm_sec : Int
  tm_min : Int
  tm_hour : Int
  tm_mday : Int
  tm_mon : Int
  tm_year : Int
  tm_wday : Int
  tm_yday : Int
  tm_isdst : Int
  tm_gmtoff : Int
  deriving DecidableEq, Repr

/-- The four C library primitives the source calls.  `localtime_r` and
`gmtime_r` give `none` where the C functions return a null pointer. -/
structure Libc where
  localtime_r : Int → Option Tm
  gmtime_r : Int → Option Tm
  timegm : Tm → Int
  timelocal : Tm → Int

def INT_MAX : Int := 2147483647

def INT_MIN : Int := -2147483648

/-- Days from 1970-01-01 to the civil date `y`-`m`-`d` (`m` from 1 to 12). -/
def daysFromCivil (y m d : Int) : Int :=
  let y1 := if m ≤ 2 then y - 1 else y
  let era := y1 / 400
  let yoe := y1 - era * 400
  let mp := if m > 2 then m - 3 else m + 9
  let doy := (153 * mp + 2) / 5 + d - 1
  let doe := yoe * 365 + yoe / 4 - yoe / 100 + doy
  era * 146097 + doe - 719468

/-- The civil date (year, month from 1, day of month from 1) of the day that
lies `z0` days after 1970-01-01: 400-year, 100-year, 4-year and 1-year cycles
counted from the first of March of year 0. -/
def civilFromDays (z0 : Int) : Int × Int × Int :=
  let z := z0 + 719468
  let era := z / 146097
  let doe := z % 146097
  let c := min (doe / 36524) 3
  let r1 := doe - 36524 * c
  let q := min (r1 / 1461) 24
  let r2 := r1 - 1461 * q
  let r := min (r2 / 365) 3
  let doy := r2 - 365 * r
  let yoe := r + 4 * q + 100 * c
  let mp := (5 * doy + 2) / 153
  let d := doy - (153 * mp + 2) / 5 + 1
  let m := if mp < 10 then mp + 3 else mp - 9
  (if m ≤ 2 then yoe + 400 * era + 1 else yoe + 400 * era, m, d)

/-- Seconds since the epoch to broken-down UTC time; `none` when the year does
not fit the `int` field `tm_year` (the C functions then fail with EOVERFLOW). -/
def secsToTm (t : Int) : Option Tm :=
  let days := t / 86400
  let remsecs := t % 86400
  let ymd := civilFromDays days
  if ymd.1 - 1900 > INT_MAX ∨ ymd.1 - 1900 < INT_MIN then none
  else some
    { tm_sec := remsecs % 60
      tm_min := remsecs / 60 % 60
      tm_hour := remsecs / 3600
      tm_mday := ymd.2.2
      tm_mon := ymd.2.1 - 1
      tm_year := ymd.1 - 1900
      tm_wday := (days + 4) % 7
      tm_yday := days - daysFromCivil ymd.1 1 1
      tm_isdst := 0
      tm_gmtoff := 0 }

/-- Broken-down time, read as UTC, to seconds since the epoch.  Only the
calendar fields `tm_year`, `tm_mon`, `tm_mday`, `tm_hour`, `tm_min`, `tm_sec`
are read; a month outside 0..11 is carried into the year. -/
def tmToSecs (tm : Tm) : Int :=
  let year := tm.tm_year + 1900 + tm.tm_mon / 12
  let month := tm.tm_mon % 12
  86400 * daysFromCivil year (month + 1) tm.tm_mday
    + 3600 * tm.tm_hour + 60 * tm.tm_min + tm.tm_sec

/-- A time zone as the C library has loaded it.  `utcOffset t` is the offset
from UTC, in seconds east, in force at the instant `t`; `isDst t` tells whether
daylight saving time is in force at `t`; `fromTzString` tells that the zone is
given by a POSIX rule string in `TZ` and not by a zone file: the library then
breaks an instant down as UTC before it applies the rules. -/
structure Zone where
  utcOffset : Int → Int
  isDst : Int → Bool
  fromTzString : Bool

/-- A zone with one offset throughout and no daylight saving time, set by a
rule string such as `TZ=XXX-1`. -/
def Zone.fixed (off : Int) : Zone :=
  { utcOffset := fun _ => off, isDst := fun _ => false, fromTzString := true }

/-- The C function `gmtime_r`. -/
def gmtimeModel (t : Int) : Option Tm := secsToTm t

/-- The C function `localtime_r`: the breakdown of the instant shifted by the
offset in force, with the DST flag and the offset recorded.  Under a rule
string the instant must also have a UTC breakdown. -/
def localtimeModel (z : Zone) (t : Int) : Option Tm :=
  if z.fromTzString ∧ secsToTm t = none then none
  else
    match secsToTm (t + z.utcOffset t) with
    | none => none
    | some tm =>
        some { tm with tm_isdst := if z.isDst t then 1 else 0, tm_gmtoff := z.utcOffset t }

/-- The C function `timegm` on a platform whose `time_t` has `sz` bytes: the
inverse of `gmtime`; -1 when the result has no breakdown or does not fit
`time_t`. -/
def timegmModel (sz : Nat) (tm : Tm) : Int :=
  match secsToTm (tmToSecs tm) with
  | none => -1
  | some _ => if isTimeT sz (tmToSecs tm) then tmToSecs tm else -1

/-- The search of `mktime` for an instant whose local time is the wall-clock
value `w`.  Each probe of an instant `t` compares its local time `t + off(t)`
with `w` and moves `t` by the difference; `t1` and `t2` are the instants of the
two probes before, `dst2` the DST flag of the probe before, and the first
argument counts the probes that are left.  A probe that only repeats the one
before the last is an oscillation around a gap in local time and ends the
search at `t` when the DST flags allow it.  `none` when no probe is left. -/
def mktimeProbe (z : Zone) (hint w : Int) : Nat → Int → Int → Int → Bool → Option Int
  | 0, _, _, _, _ => none
  | remaining + 1, t, t1, t2, dst2 =>
      if w - (t + z.utcOffset t) = 0 then some t
      else if t = t1 ∧ t ≠ t2 ∧
          (if hint < 0 then (!dst2 || z.isDst t) = true else decide (hint ≠ 0) ≠ z.isDst t)
        then some t
      else if remaining = 0 then none
      else mktimeProbe z hint w remaining (t + (w - (t + z.utcOffset t))) t2 t (z.isDst t)

/-- The search of `mktime` from its start: at most six probes, the first at the
wall-clock value `w` less `guess`, the offset the previous call of the process
arrived at (0 when there was none). -/
def mktimeFind (z : Zone) (hint w guess : Int) : Option Int :=
  mktimeProbe z hint w 6 (w - guess) (w - guess) (w - guess) false

/-- The C function `timelocal` (`mktime`) on a platform whose `time_t` has `sz`
bytes.  The calendar fields are read as wall-clock time of the zone and the
instant is searched for by probes.  The result is -1 when the search fails,
when the instant found has no local breakdown, or when it does not fit
`time_t`.  With `tm_isdst = -1`, the only value the source passes, the zone
rules decide about daylight saving time; the further search for an instant
with a requested DST flag is left out. -/
def timelocalModel (sz : Nat) (z : Zone) (guess : Int) (tm : Tm) : Int :=
  match mktimeFind z tm.tm_isdst (tmToSecs tm) guess with
  | none => -1
  | some t =>
      match localtimeModel z t with
      | none => -1
      | some _ => if isTimeT sz t then t else -1

/-- The C library of a platform whose `time_t` has `sz` bytes, configured for
zone `z`, in a process whose `mktime` keeps the offset `guess` from its
previous call. -/
def libcOf (sz : Nat) (z : Zone) (guess : Int) : Libc :=
  { localtime_r := localtimeModel z
    gmtime_r := gmtimeModel
    timegm := timegmModel sz
    timelocal := timelocalModel sz z guess }

/-! ## The source: conversions -/

/-- Source `toLocal` (lines 114-125): `localtime_r`, then `timegm` on the local
fields as if they were UTC. -/
def toLocal (c : Libc) (utc : Int) : Int :=
  match c.localtime_r utc with
  | none => -1
  | some localTm => c.timegm localTm

/-- Source `toUtc` (lines 127-138): `gmtime_r`, `tm_isdst = -1`, then
`timelocal`. -/
def toUtc (c : Libc) (loc : Int) : Int :=
  match c.gmtime_r loc with
  | none => -1
  | some localTm => c.timelocal { localTm with tm_isdst := -1 }

/-- Source `toTimeT` (lines 140-151); `sz` is `sizeof(time_t)`, and
`sizeof(int32_t)` is 4.  The number read is converted to `time_t` on return. -/
def toTimeT (sz : Nat) (value : JValue) : Int :=
  if sz ≤ 4 then staticCast (8 * sz) (asNumber 32 value)
  else staticCast (8 * sz) (asNumber 64 value)

/-- Source `toJValue` (lines 153-164). -/
def toJValue (sz : Nat) (value : Int) : JValue :=
  if sz ≤ 4 then JValue.num (staticCast 32 value)
  else JValue.num (staticCast 64 value)

/-! ## The source: request schemas, store and replies -/

/-- Source `schemaSetBroadcastTime` (lines 26-42): an object with the integer
properties `utc` and `local` and no other property.  Neither property is marked
optional, so both are required. -/
def schemaSetBroadcastTime (request : JObject) : Bool :=
  (request.fields.all fun kv =>
    (kv.1 == "utc" || kv.1 == "local") &&
      (match kv.2 with
       | JValue.num _ => true
       | _ => false)) &&
    (request.fields.lookup "utc").isSome && (request.fields.lookup "local").isSome

/-- Source `schemaEmptyObject` (line 23): an object without any property. -/
def schemaEmptyObject (request : JObject) : Bool :=
  request.fields.isEmpty

/-- Modelled from the spec: class `BroadcastTime`, the type of the member
`m_broadcastTime`, is declared in a header that is not among the sources.  It
holds zero or one pair (utc, local); both fields are set together. -/
structure BroadcastTime where
  pair : Option (Int × Int)
  deriving DecidableEq, Repr

/-- Modelled from the spec: the state of a `BroadcastTime` that was just
created holds no pair. -/
def BroadcastTime.empty : BroadcastTime := ⟨none⟩

/-- Modelled from the spec: `BroadcastTime::set(utc, local)` unconditionally
overwrites any previous pair, without validation. -/
def BroadcastTime.set (_b : BroadcastTime) (utc loc : Int) : BroadcastTime :=
  ⟨some (utc, loc)⟩

/-- Modelled from the spec: `BroadcastTime::get(utc, local)` gives the current
pair if one has ever been set and reports absence otherwise. -/
def BroadcastTime.get (b : BroadcastTime) : Option (Int × Int) :=
  b.pair

/-- The part of `TimePrefsHandler` the three handlers read: the store
`m_broadcastTime` and the value of `isSystemTimeBroadcastEffective()`, which
is computed outside the source and is an input here. -/
structure TimePrefsHandler where
  m_broadcastTime : BroadcastTime
  isSystemTimeBroadcastEffective : Bool
  deriving DecidableEq, Repr

/-- Modelled from the spec: `createJsonReply` of JSONUtils, which is not among
the sources.  Success is the object with `returnValue` alone; a failure also
carries `errorCode` and `errorText`. -/
def createJsonReply (returnValue : Bool) (errorCode : Int) (errorText : String) : JObject :=
  if returnValue then JObject.empty.put "returnValue" (JValue.bool true)
  else ((JObject.empty.put "returnValue" (JValue.bool false)).put "errorCode"
    (JValue.num errorCode)).put "errorText" (JValue.str errorText)

/-- Source `schemaGeneric` (line 22): the schema that accepts everything. -/
def schemaGeneric (_response : JObject) : Bool := true

/-- Source `schemaGetBroadcastTimeReply` (lines 45-71): `returnValue` is the
boolean true, `utc`, `adjustedUtc` and `local` are integers, `utc` and
`adjustedUtc` may be left out, and there is no other property. -/
def schemaGetBroadcastTimeReply (response : JObject) : Bool :=
  (response.fields.all fun kv =>
    (kv.1 == "returnValue" && kv.2 == JValue.bool true) ||
      ((kv.1 == "utc" || kv.1 == "adjustedUtc" || kv.1 == "local") &&
        (match kv.2 with
         | JValue.num _ => true
         | _ => false))) &&
    (response.fields.lookup "returnValue").isSome && (response.fields.lookup "local").isSome

/-- Source `reply` (lines 92-112): the response is serialized under the schema
and sent; nothing is sent when it does not conform to the schema.  The result
is the message sent, if any. -/
def reply (response : JObject) (schema : JObject → Bool) : Option JObject :=
  if !schema response then none else some response

/-! ## The source: handlers

A handler gives the message it sends through `reply`, or `none` when it sends
nothing itself: when the request fails schema validation, `parser.parse`
answers and the handler returns at once. -/

/-- Source `TimePrefsHandler::cbSetBroadcastTime` (lines 167-180). -/
def cbSetBroadcastTime (sz : Nat) (h : TimePrefsHandler) (request : JObject) :
    TimePrefsHandler × Option JObject :=
  if !schemaSetBroadcastTime request then (h, none)
  else
    ({ h with m_broadcastTime :=
          h.m_broadcastTime.set (toTimeT sz (request.get "utc")) (toTimeT sz (request.get "local")) },
      reply (createJsonReply true 0 "") schemaGeneric)

/-- Source `TimePrefsHandler::cbGetBroadcastTime` (lines 182-202). -/
def cbGetBroadcastTime (sz : Nat) (h : TimePrefsHandler) (request : JObject) : Option JObject :=
  if !schemaEmptyObject request then none
  else
    match h.m_broadcastTime.get with
    | none => reply (createJsonReply false (-2) "No information available") schemaGeneric
    | some (utc, loc) =>
        reply (((JObject.empty.put "returnValue" (JValue.bool true)).put "utc"
          (toJValue sz utc)).put "local" (toJValue sz loc)) schemaGetBroadcastTimeReply

/-- Source `TimePrefsHandler::cbGetEffectiveBroadcastTime`, lines 213-238: the
values of the variables `adjustedUtc` and `local` when the branches join.
`now` is the value of `time(0)`. -/
def effectiveTime (c : Libc) (now : Int) (h : TimePrefsHandler) : Int × Int :=
  if h.isSystemTimeBroadcastEffective then
    (now, toLocal c now)
  else
    match h.m_broadcastTime.get with
    | none => (now, toLocal c now)
    | some (_, loc) => (toUtc c loc, loc)

/-- Source `TimePrefsHandler::cbGetEffectiveBroadcastTime` (lines 204-251). -/
def cbGetEffectiveBroadcastTime (sz : Nat) (c : Libc) (now : Int) (h : TimePrefsHandler)
    (request : JObject) : Option JObject :=
  if !schemaEmptyObject request then none
  else
    let adjustedUtc := (effectiveTime c now h).1
    let loc := (effectiveTime c now h).2
    if loc = -1 then reply (createJsonReply false (-1) "Failed to get localtime") schemaGeneric
    else
      reply (((JObject.empty.put "returnValue" (JValue.bool true)).put "adjustedUtc"
        (toJValue sz adjustedUtc)).put "local" (toJValue sz loc)) schemaGetBroadcastTimeReply

/-! ## Derived notions used in the statements -/

/-- The handler state after a sequence of `SetBroadcastTime` requests. -/
def afterSets (sz : Nat) (h : TimePrefsHandler) (requests : List JObject) : TimePrefsHandler :=
  requests.foldl (fun st r => (cbSetBroadcastTime sz st r).1) h

/-- The handler state of a fresh process: an empty store. -/
def TimePrefsHandler.fresh (flag : Bool) : TimePrefsHandler :=
  { m_broadcastTime := BroadcastTime.empty, isSystemTimeBroadcastEffective := flag }

/-- The successful reply of `GetBroadcastTime`. -/
def broadcastTimeReply (utc loc : Int) : JObject :=
  ⟨[("returnValue", JValue.bool true), ("utc", JValue.num utc), ("local", JValue.num loc)]⟩

/-- The successful reply of `GetEffectiveBroadcastTime`. -/
def effectiveTimeReply (adjustedUtc loc : Int) : JObject :=
  ⟨[("returnValue", JValue.bool true), ("adjustedUtc", JValue.num adjustedUtc),
    ("local", JValue.num loc)]⟩

/-- A failure reply. -/
def errorReply (errorCode : Int) (errorText : String) : JObject :=
  ⟨[("returnValue", JValue.bool false), ("errorCode", JValue.num errorCode),
    ("errorText", JValue.str errorText)]⟩

/-- Typing of the inputs: `time_t` has 4 or 8 bytes, what `timegm` and
`timelocal` return is a `time_t`, and so are the stored values. -/
def WellTyped (sz : Nat) (c : Libc) (h : TimePrefsHandler) : Prop :=
  (sz = 4 ∨ sz = 8) ∧ (∀ tm, isTimeT sz (c.timegm tm)) ∧ (∀ tm, isTimeT sz (c.timelocal tm)) ∧
    (∀ p, h.m_broadcastTime.get = some p → isTimeT sz p.1 ∧ isTimeT sz p.2)

/-- A `SetBroadcastTime` request carrying both fields. -/
def setRequest (utc loc : Int) : JObject :=
  ⟨[("utc", JValue.num utc), ("local", JValue.num loc)]⟩

/-- A zone that leaves daylight saving time at the instant `T`: two hours east
of UTC before `T`, one hour from `T` on, read from a zone file. -/
def Zone.fallBack (T : Int) : Zone :=
  { utcOffset := fun t => if t < T then 7200 else 3600
    isDst := fun t => decide (t < T)
    fromTzString := false }

/-- A zone that enters daylight saving time at the instant `T`: one hour east of
UTC before `T`, two hours from `T` on, read from a zone file. -/
def Zone.springForward (T : Int) : Zone :=
  { utcOffset := fun t => if t < T then 3600 else 7200
    isDst := fun t => decide (T ≤ t)
    fromTzString := false }

/-- The zone `Zone.fallBack` five hours further west. -/
def Zone.fallBackWest (T : Int) : Zone :=
  { utcOffset := fun t => if t < T then -14400 else -18000
    isDst := fun t => decide (t < T)
    fromTzString := false }

/-- The C library with a 64-bit `time_t` configured for UTC, in a fresh process. -/
def utcLibc : Libc := libcOf 8 (Zone.fixed 0) 0

/-- The C library with a 64-bit `time_t` configured for a zone one hour east of
UTC, in a fresh process. -/
def eastLibc : Libc := libcOf 8 (Zone.fixed 3600) 0

/-- A handler state whose store holds the pair (utc, loc). -/
def TimePrefsHandler.holding (flag : Bool) (utc loc : Int) : TimePrefsHandler :=
  { m_broadcastTime := BroadcastTime.empty.set utc loc, isSystemTimeBroadcastEffective := flag }

/-! ## Calendar lemmas -/

theorem staticCast_of_isTimeT (sz : Nat) (t : Int) (hsz : sz = 4 ∨ sz = 8) (ht : isTimeT sz t) :
    staticCast (8 * sz) t = t := by
  rcases hsz with rfl | rfl
  · simp only [isTimeT, staticCast] at *
    norm_num at *
    omega
  · simp only [isTimeT, staticCast] at *
    norm_num at *
    omega

theorem toJValue_of_isTimeT (sz : Nat) (t : Int) (hsz : sz = 4 ∨ sz = 8) (ht : isTimeT sz t) :
    toJValue sz t = JValue.num t := by
  have h := staticCast_of_isTimeT sz t hsz ht
  rcases hsz with rfl | rfl
  · simp only [toJValue]
    norm_num at h ⊢
    exact h
  · simp only [toJValue]
    norm_num at h ⊢
    exact h

theorem toTimeT_num_of_isTimeT (sz : Nat) (t : Int) (hsz : sz = 4 ∨ sz = 8)
    (ht : isTimeT sz t) : toTimeT sz (JValue.num t) = t := by
  have h := staticCast_of_isTimeT sz t hsz ht
  rcases hsz with rfl | rfl
  · have e : asNumber 32 (JValue.num t) = t := by
      simp only [isTimeT, asNumber] at *
      norm_num at *
      omega
    simp only [toTimeT]
    norm_num
    rw [e]
    exact h
  · have e : asNumber 64 (JValue.num t) = t := by
      simp only [isTimeT, asNumber] at *
      norm_num at *
      omega
    simp only [toTimeT]
    norm_num
    rw [e]
    exact h

theorem toTimeT_isTimeT (sz : Nat) (v : JValue) (hsz : sz = 4 ∨ sz = 8) :
    isTimeT sz (toTimeT sz v) := by
  rcases hsz with rfl | rfl
  · simp only [isTimeT, toTimeT, staticCast]
    norm_num
    omega
  · simp only [isTimeT, toTimeT, staticCast]
    norm_num
    omega

/-! ## The C library model: typing, the offset law and the search of `mktime` -/

theorem isTimeT_neg_one (sz : Nat) (hsz : sz = 4 ∨ sz = 8) : isTimeT sz (-1) := by
  rcases hsz with rfl | rfl <;> decide

theorem timegmModel_isTimeT (sz : Nat) (hsz : sz = 4 ∨ sz = 8) (tm : Tm) :
    isTimeT sz (timegmModel sz tm) := by
  unfold timegmModel
  split
  · exact isTimeT_neg_one sz hsz
  · split_ifs with h
    · exact h
    · exact isTimeT_neg_one sz hsz

theorem timelocalModel_isTimeT (sz : Nat) (hsz : sz = 4 ∨ sz = 8) (z : Zone) (guess : Int)
    (tm : Tm) : isTimeT sz (timelocalModel sz z guess tm) := by
  unfold timelocalModel
  generalize mktimeFind z tm.tm_isdst (tmToSecs tm) guess = r
  cases r with
  | none => exact isTimeT_neg_one sz hsz
  | some t =>
    show isTimeT sz (match localtimeModel z t with
      | none => -1
      | some _ => if isTimeT sz t then t else -1)
    generalize localtimeModel z t = l
    cases l with
    | none => exact isTimeT_neg_one sz hsz
    | some tm2 =>
      show isTimeT sz (if isTimeT sz t then t else -1)
      split_ifs with h
      · exact h
      · exact isTimeT_neg_one sz hsz

theorem libcOf_wellTyped (sz : Nat) (hsz : sz = 4 ∨ sz = 8) (z : Zone) (guess : Int)
    (h : TimePrefsHandler)
    (hs : ∀ p, h.m_broadcastTime.get = some p → isTimeT sz p.1 ∧ isTimeT sz p.2) :
    WellTyped sz (libcOf sz z guess) h :=
  ⟨hsz, timegmModel_isTimeT sz hsz, timelocalModel_isTimeT sz hsz z guess, hs⟩

theorem effectiveReply_put (a b : JValue) :
    ((JObject.empty.put "returnValue" (JValue.bool true)).put "adjustedUtc" a).put "local" b
      = ⟨[("returnValue", JValue.bool true), ("adjustedUtc", a), ("local", b)]⟩ := by
  rfl

theorem broadcastReply_put (a b : JValue) :
    ((JObject.empty.put "returnValue" (JValue.bool true)).put "utc" a).put "local" b
      = ⟨[("returnValue", JValue.bool true), ("utc", a), ("local", b)]⟩ := by
  rfl

theorem createJsonReply_false (code : Int) (text : String) :
    createJsonReply false code text = errorReply code text := by
  rfl

theorem reply_schemaGeneric (response : JObject) : reply response schemaGeneric = some response := by
  rfl

theorem toJValue_num (sz : Nat) (v : Int) : ∃ n, toJValue sz v = JValue.num n := by
  unfold toJValue
  split_ifs
  · exact ⟨_, rfl⟩
  · exact ⟨_, rfl⟩

theorem reply_effective (sz : Nat) (a b : Int) :
    reply ⟨[("returnValue", JValue.bool true), ("adjustedUtc", toJValue sz a),
        ("local", toJValue sz b)]⟩ schemaGetBroadcastTimeReply
      = some ⟨[("returnValue", JValue.bool true), ("adjustedUtc", toJValue sz a),
        ("local", toJValue sz b)]⟩ := by
  obtain ⟨n, hn⟩ := toJValue_num sz a
  obtain ⟨m, hm⟩ := toJValue_num sz b
  rw [hn, hm]
  rfl

theorem reply_broadcast (sz : Nat) (a b : Int) :
    reply ⟨[("returnValue", JValue.bool true), ("utc", toJValue sz a),
        ("local", toJValue sz b)]⟩ schemaGetBroadcastTimeReply
      = some ⟨[("returnValue", JValue.bool true), ("utc", toJValue sz a),
        ("local", toJValue sz b)]⟩ := by
  obtain ⟨n, hn⟩ := toJValue_num sz a
  obtain ⟨m, hm⟩ := toJValue_num sz b
  rw [hn, hm]
  rfl

/-- The reply of `cbGetEffectiveBroadcastTime` to a valid request, in terms of
the two variables computed before the sentinel check. -/
theorem cbGetEffectiveBroadcastTime_reply (sz : Nat) (c : Libc) (now : Int)
    (h : TimePrefsHandler) (request : JObject) (hreq : schemaEmptyObject request = true) :
    cbGetEffectiveBroadcastTime sz c now h request =
      if (effectiveTime c now h).2 = -1 then
        some (errorReply (-1) "Failed to get localtime")
      else
        some ⟨[("returnValue", JValue.bool true),
          ("adjustedUtc", toJValue sz (effectiveTime c now h).1),
          ("local", toJValue sz (effectiveTime c now h).2)]⟩ := by
  simp only [cbGetEffectiveBroadcastTime, hreq, Bool.not_true, Bool.false_eq_true, if_false,
    effectiveReply_put, createJsonReply_false, reply_schemaGeneric, reply_effective]

theorem toLocal_isTimeT (sz : Nat) (c : Libc) (h : TimePrefsHandler) (hty : WellTyped sz c h)
    (t : Int) : isTimeT sz (toLocal c t) := by
  unfold toLocal
  split
  · exact isTimeT_neg_one sz hty.1
  · exact hty.2.1 _

theorem toUtc_isTimeT (sz : Nat) (c : Libc) (h : TimePrefsHandler) (hty : WellTyped sz c h)
    (t : Int) : isTimeT sz (toUtc c t) := by
  unfold toUtc
  split
  · exact isTimeT_neg_one sz hty.1
  · exact hty.2.2.1 _

theorem effectiveTime_isTimeT (sz : Nat) (c : Libc) (now : Int) (h : TimePrefsHandler)
    (hty : WellTyped sz c h) (hnow : isTimeT sz now) :
    isTimeT sz (effectiveTime c now h).1 ∧ isTimeT sz (effectiveTime c now h).2 := by
  unfold effectiveTime
  split_ifs
  · exact ⟨hnow, toLocal_isTimeT sz c h hty now⟩
  · split
    · exact ⟨hnow, toLocal_isTimeT sz c h hty now⟩
    · next u l hg => exact ⟨toUtc_isTimeT sz c h hty l, (hty.2.2.2 _ hg).2⟩

/-- The reply to a valid request when all values are of type `time_t`. -/
theorem cbGetEffectiveBroadcastTime_typed (sz : Nat) (c : Libc) (now : Int)
    (h : TimePrefsHandler) (request : JObject) (hreq : schemaEmptyObject request = true)
    (hty : WellTyped sz c h) (hnow : isTimeT sz now) :
    cbGetEffectiveBroadcastTime sz c now h request =
      if (effectiveTime c now h).2 = -1 then
        some (errorReply (-1) "Failed to get localtime")
      else
        some (effectiveTimeReply (effectiveTime c now h).1 (effectiveTime c now h).2) := by
  have ht := effectiveTime_isTimeT sz c now h hty hnow
  rw [cbGetEffectiveBroadcastTime_reply sz c now h request hreq,
    toJValue_of_isTimeT sz _ hty.1 ht.1, toJValue_of_isTimeT sz _ hty.1 ht.2]
  rfl

/-! ## The store under `SetBroadcastTime` -/

theorem cbSetBroadcastTime_invalid (sz : Nat) (h : TimePrefsHandler) (r : JObject)
    (hr : schemaSetBroadcastTime r = false) : (cbSetBroadcastTime sz h r).1 = h := by
  simp [cbSetBroadcastTime, hr]

theorem cbSetBroadcastTime_valid (sz : Nat) (h : TimePrefsHandler) (r : JObject)
    (hr : schemaSetBroadcastTime r = true) :
    (cbSetBroadcastTime sz h r).1.m_broadcastTime.get
      = some (toTimeT sz (r.get "utc"), toTimeT sz (r.get "local")) := by
  simp [cbSetBroadcastTime, hr, BroadcastTime.set, BroadcastTime.get]

theorem afterSets_append (sz : Nat) (h : TimePrefsHandler) (rs : List JObject) (r : JObject) :
    afterSets sz h (rs ++ [r]) = (cbSetBroadcastTime sz (afterSets sz h rs) r).1 := by
  simp [afterSets, List.foldl_append]

theorem afterSets_invalid (sz : Nat) (rs : List JObject) :
    ∀ h : TimePrefsHandler, (∀ r ∈ rs, schemaSetBroadcastTime r = false) →
      afterSets sz h rs = h := by
  induction rs with
  | nil => intro h _; rfl
  | cons r rs ih =>
    intro h hall
    have h1 : schemaSetBroadcastTime r = false := hall r (List.mem_cons_self r rs)
    have h2 : ∀ x ∈ rs, schemaSetBroadcastTime x = false :=
      fun x hx => hall x (List.mem_cons_of_mem r hx)
    show afterSets sz (cbSetBroadcastTime sz h r).1 rs = h
    rw [cbSetBroadcastTime_invalid sz h r h1]
    exact ih h h2

theorem afterSets_valid (sz : Nat) (hsz : sz = 4 ∨ sz = 8) (rs : List JObject) :
    ∀ h : TimePrefsHandler, (∃ r ∈ rs, schemaSetBroadcastTime r = true) →
      ∃ utc loc, (afterSets sz h rs).m_broadcastTime.get = some (utc, loc) ∧
        isTimeT sz utc ∧ isTimeT sz loc := by
  induction rs with
  | nil => intro h hex; obtain ⟨r, hr, _⟩ := hex; cases hr
  | cons r rs ih =>
    intro h hex
    by_cases hrs : ∃ x ∈ rs, schemaSetBroadcastTime x = true
    · exact ih (cbSetBroadcastTime sz h r).1 hrs
    · have hall : ∀ x ∈ rs, schemaSetBroadcastTime x = false := by
        intro x hx
        by_contra hne
        exact hrs ⟨x, hx, by simpa using hne⟩
      have hr : schemaSetBroadcastTime r = true := by
        obtain ⟨x, hx, hv⟩ := hex
        rcases List.mem_cons.mp hx with rfl | hx2
        · exact hv
        · exact absurd hv (by simp [hall x hx2])
      refine ⟨toTimeT sz (r.get "utc"), toTimeT sz (r.get "local"), ?_,
        toTimeT_isTimeT sz _ hsz, toTimeT_isTimeT sz _ hsz⟩
      show (afterSets sz (cbSetBroadcastTime sz h r).1 rs).m_broadcastTime.get = _
      rw [afterSets_invalid sz rs _ hall]
      exact cbSetBroadcastTime_valid sz h r hr

theorem cbGetBroadcastTime_none (sz : Nat) (h : TimePrefsHandler) (q : JObject)
    (hq : schemaEmptyObject q = true) (hs : h.m_broadcastTime.get = none) :
    cbGetBroadcastTime sz h q = some (errorReply (-2) "No information available") := by
  simp only [cbGetBroadcastTime, hq, hs, Bool.not_true, Bool.false_eq_true, if_false,
    createJsonReply_false, reply_schemaGeneric]

theorem cbGetBroadcastTime_some (sz : Nat) (h : TimePrefsHandler) (q : JObject) (utc loc : Int)
    (hsz : sz = 4 ∨ sz = 8) (hq : schemaEmptyObject q = true)
    (hs : h.m_broadcastTime.get = some (utc, loc)) (hu : isTimeT sz utc) (hl : isTimeT sz loc) :
    cbGetBroadcastTime sz h q = some (broadcastTimeReply utc loc) := by
  simp only [cbGetBroadcastTime, hq, hs, Bool.not_true, Bool.false_eq_true, if_false,
    broadcastReply_put, reply_broadcast, toJValue_of_isTimeT sz _ hsz hu,
    toJValue_of_isTimeT sz _ hsz hl]
  rfl

/-! ## The claims -/

/-- C1 (amended): when `isSystemTimeBroadcastEffective()` is false and the store
holds the pair (U, L) with L different from the sentinel, the reply of
`cbGetEffectiveBroadcastTime` is the success with `local = L` and
`adjustedUtc = toUtc(L)`; and for every L the reply does not depend on U: any
other state with the flag false and a stored pair (U2, L) gets the same
reply. -/
theorem effective_broadcast_branch (sz : Nat) (c : Libc) (now : Int) (h : TimePrefsHandler)
    (request : JObject) (U L : Int) (hreq : schemaEmptyObject request = true)
    (hflag : h.isSystemTimeBroadcastEffective = false)
    (hstore : h.m_broadcastTime.get = some (U, L)) (hty : WellTyped sz c h) :
    (L ≠ -1 → cbGetEffectiveBroadcastTime sz c now h request
        = some (effectiveTimeReply (toUtc c L) L)) ∧
      ∀ (h2 : TimePrefsHandler) (U2 : Int), h2.isSystemTimeBroadcastEffective = false →
        h2.m_broadcastTime.get = some (U2, L) →
          cbGetEffectiveBroadcastTime sz c now h2 request
            = cbGetEffectiveBroadcastTime sz c now h request := by
  have he : effectiveTime c now h = (toUtc c L, L) := by
    simp only [effectiveTime, hflag, hstore, Bool.false_eq_true, if_false]
  constructor
  · intro hL
    have hu : isTimeT sz (toUtc c L) := toUtc_isTimeT sz c h hty L
    have hl : isTimeT sz L := (hty.2.2.2 _ hstore).2
    rw [cbGetEffectiveBroadcastTime_reply sz c now h request hreq, he]
    simp only [hL, if_false, toJValue_of_isTimeT sz _ hty.1 hu, toJValue_of_isTimeT sz _ hty.1 hl]
    rfl
  · intro h2 U2 hflag2 hstore2
    have he2 : effectiveTime c now h2 = (toUtc c L, L) := by
      simp only [effectiveTime, hflag2, hstore2, Bool.false_eq_true, if_false]
    rw [cbGetEffectiveBroadcastTime_reply sz c now h request hreq,
      cbGetEffectiveBroadcastTime_reply sz c now h2 request hreq, he, he2]

/-- C2 (amended): when `isSystemTimeBroadcastEffective()` is true, whatever the
store holds, or when it is false and the store is empty,
`cbGetEffectiveBroadcastTime` computes `adjustedUtc = now` and
`local = toLocal(now)`, and replies with them unless `toLocal(now)` is the
sentinel. -/
theorem effective_system_clock_branch (sz : Nat) (c : Libc) (now : Int) (h : TimePrefsHandler)
    (request : JObject) (hreq : schemaEmptyObject request = true)
    (hsel : h.isSystemTimeBroadcastEffective = true ∨ h.m_broadcastTime.get = none)
    (hty : WellTyped sz c h) (hnow : isTimeT sz now) :
    effectiveTime c now h = (now, toLocal c now) ∧
      cbGetEffectiveBroadcastTime sz c now h request =
        if toLocal c now = -1 then some (errorReply (-1) "Failed to get localtime")
        else some (effectiveTimeReply now (toLocal c now)) := by
  have he : effectiveTime c now h = (now, toLocal c now) := by
    rcases hsel with hf | hs
    · simp only [effectiveTime, hf, if_true]
    · cases hf : h.isSystemTimeBroadcastEffective <;> simp [effectiveTime, hf, hs]
  refine ⟨he, ?_⟩
  rw [cbGetEffectiveBroadcastTime_typed sz c now h request hreq hty hnow, he]

/-- C3 (the code at the failing input): with a 64-bit `time_t`, the flag false
and the pair (0, 2^62) stored by `SetBroadcastTime`, `gmtime_r` fails on the
stored local value, `toUtc` gives the sentinel, and the reply is nevertheless
the success carrying `adjustedUtc = -1`. -/
theorem effective_reply_carries_failed_toUtc :
    utcLibc.gmtime_r 4611686018427387904 = none ∧
      toUtc utcLibc 4611686018427387904 = -1 ∧
      cbGetEffectiveBroadcastTime 8 utcLibc 5000
          (cbSetBroadcastTime 8 (TimePrefsHandler.fresh false)
            (setRequest 0 4611686018427387904)).1 JObject.empty
        = some (effectiveTimeReply (-1) 4611686018427387904) := by
  decide

/-- C7: for a valid request and inputs of type `time_t`,
`cbGetEffectiveBroadcastTime` replies with the failure "Failed to get
localtime" (code -1) whenever the resulting `local` is the sentinel, otherwise
with the success carrying `adjustedUtc` and `local`; and a successful reply
never has `local = -1`. -/
theorem effective_reply_guards_local (sz : Nat) (c : Libc) (now : Int) (h : TimePrefsHandler)
    (request : JObject) (hreq : schemaEmptyObject request = true) (hty : WellTyped sz c h)
    (hnow : isTimeT sz now) :
    ((effectiveTime c now h).2 = -1 →
        cbGetEffectiveBroadcastTime sz c now h request
          = some (errorReply (-1) "Failed to get localtime")) ∧
      ((effectiveTime c now h).2 ≠ -1 →
        cbGetEffectiveBroadcastTime sz c now h request
          = some (effectiveTimeReply (effectiveTime c now h).1 (effectiveTime c now h).2)) ∧
      ∀ r : JObject, cbGetEffectiveBroadcastTime sz c now h request = some r →
        r.get "returnValue" = JValue.bool true →
          r.get "local" ≠ JValue.num (-1) ∧
            r = effectiveTimeReply (effectiveTime c now h).1 (effectiveTime c now h).2 := by
  have hr := cbGetEffectiveBroadcastTime_typed sz c now h request hreq hty hnow
  refine ⟨fun hl => by rw [hr, if_pos hl], fun hl => by rw [hr, if_neg hl], ?_⟩
  intro r hrr hrv
  rw [hr] at hrr
  split_ifs at hrr with hl
  · simp only [Option.some.injEq] at hrr
    subst hrr
    exact absurd hrv (by decide)
  · simp only [Option.some.injEq] at hrr
    subst hrr
    refine ⟨?_, rfl⟩
    intro hcon
    apply hl
    have : JValue.num (effectiveTime c now h).2 = JValue.num (-1) := hcon
    exact JValue.num.inj this

/-- C8: when the store holds no pair, and so in particular when the flag is
true and the store holds no pair, `cbGetEffectiveBroadcastTime` computes
`adjustedUtc = now` and `local = toLocal(now)`; the reply is the success with
these values unless `toLocal(now)` is the sentinel, and it is a failure only
in that case. -/
theorem effective_empty_store (sz : Nat) (c : Libc) (now : Int) (h : TimePrefsHandler)
    (request : JObject) (hreq : schemaEmptyObject request = true)
    (hstore : h.m_broadcastTime.get = none) (hty : WellTyped sz c h) (hnow : isTimeT sz now) :
    effectiveTime c now h = (now, toLocal c now) ∧
      (toLocal c now ≠ -1 →
        cbGetEffectiveBroadcastTime sz c now h request
          = some (effectiveTimeReply now (toLocal c now))) ∧
      (cbGetEffectiveBroadcastTime sz c now h request
          = some (errorReply (-1) "Failed to get localtime") ↔ toLocal c now = -1) := by
  have he : effectiveTime c now h = (now, toLocal c now) := by
    cases hf : h.isSystemTimeBroadcastEffective <;> simp [effectiveTime, hf, hstore]
  have hr := cbGetEffectiveBroadcastTime_typed sz c now h request hreq hty hnow
  rw [he] at hr
  refine ⟨he, fun hl => by rw [hr]; exact if_neg hl, ?_⟩
  constructor
  · intro hfail
    by_contra hl
    rw [hr] at hfail
    simp only [hl, if_false, Option.some.injEq] at hfail
    have h2 : (effectiveTimeReply now (toLocal c now)).get "returnValue" = JValue.bool true :=
      rfl
    rw [hfail] at h2
    exact absurd h2 (by decide)
  · intro hl
    rw [hr]
    exact if_pos hl

/-- C1 (counterexample): with the flag true and the pair (1000, 2000) stored,
the reply carries the system clock value 5000 and its local rendering, not
`local = 2000` and `adjustedUtc = toUtc(2000)`.  With the flag false and a
stored local value equal to the sentinel the reply is the failure. -/
theorem effective_flag_true_uses_clock :
    cbGetEffectiveBroadcastTime 8 eastLibc 5000 (TimePrefsHandler.holding true 1000 2000)
        JObject.empty = some (effectiveTimeReply 5000 8600) ∧
      cbGetEffectiveBroadcastTime 8 eastLibc 5000 (TimePrefsHandler.holding true 1000 2000)
        JObject.empty ≠ some (effectiveTimeReply (toUtc eastLibc 2000) 2000) ∧
      cbGetEffectiveBroadcastTime 8 eastLibc 5000 (TimePrefsHandler.holding false 1000 (-1))
        JObject.empty = some (errorReply (-1) "Failed to get localtime") := by
  decide

/-- C2 (counterexample): with the flag false and the pair (1000, 2000) stored,
the computed values are `toUtc(2000)` and 2000, not the clock value 5000 and
`toLocal(5000)`. -/
theorem effective_flag_false_uses_store :
    effectiveTime eastLibc 5000 (TimePrefsHandler.holding false 1000 2000) = (-1600, 2000) ∧
      effectiveTime eastLibc 5000 (TimePrefsHandler.holding false 1000 2000)
        ≠ (5000, toLocal eastLibc 5000) := by
  decide

/-- C5: after any sequence of `SetBroadcastTime` requests that ends with a
valid request carrying `utc` and `local`, `cbGetBroadcastTime` replies with
the success carrying exactly these two values. -/
theorem get_after_set (sz : Nat) (h : TimePrefsHandler) (requests : List JObject)
    (request query : JObject) (utc loc : Int) (hsz : sz = 4 ∨ sz = 8) (hu : isTimeT sz utc)
    (hl : isTimeT sz loc) (hv : schemaSetBroadcastTime request = true)
    (hgu : request.get "utc" = JValue.num utc) (hgl : request.get "local" = JValue.num loc)
    (hq : schemaEmptyObject query = true) :
    (afterSets sz h (requests ++ [request])).m_broadcastTime.get = some (utc, loc) ∧
      cbGetBroadcastTime sz (afterSets sz h (requests ++ [request])) query
        = some (broadcastTimeReply utc loc) := by
  have hs : (afterSets sz h (requests ++ [request])).m_broadcastTime.get = some (utc, loc) := by
    rw [afterSets_append, cbSetBroadcastTime_valid sz _ request hv, hgu, hgl,
      toTimeT_num_of_isTimeT sz utc hsz hu, toTimeT_num_of_isTimeT sz loc hsz hl]
  exact ⟨hs, cbGetBroadcastTime_some sz _ query utc loc hsz hq hs hu hl⟩

/-- C6: on a store that was created empty, `cbGetBroadcastTime` replies with
the failure "No information available" (code -2) exactly when none of the
`SetBroadcastTime` requests received so far was performed; in every other
state it replies with the success carrying the stored pair. -/
theorem get_not_available_iff (sz : Nat) (flag : Bool) (requests : List JObject)
    (query : JObject) (hsz : sz = 4 ∨ sz = 8) (hq : schemaEmptyObject query = true) :
    (cbGetBroadcastTime sz (afterSets sz (TimePrefsHandler.fresh flag) requests) query
        = some (errorReply (-2) "No information available")
      ↔ ∀ r ∈ requests, schemaSetBroadcastTime r = false) ∧
    ((∃ r ∈ requests, schemaSetBroadcastTime r = true) →
      ∃ utc loc,
        (afterSets sz (TimePrefsHandler.fresh flag) requests).m_broadcastTime.get
          = some (utc, loc) ∧
        cbGetBroadcastTime sz (afterSets sz (TimePrefsHandler.fresh flag) requests) query
          = some (broadcastTimeReply utc loc)) := by
  have hsome : (∃ r ∈ requests, schemaSetBroadcastTime r = true) →
      ∃ utc loc,
        (afterSets sz (TimePrefsHandler.fresh flag) requests).m_broadcastTime.get
          = some (utc, loc) ∧
        cbGetBroadcastTime sz (afterSets sz (TimePrefsHandler.fresh flag) requests) query
          = some (broadcastTimeReply utc loc) := by
    intro hex
    obtain ⟨utc, loc, hs, hu, hl⟩ := afterSets_valid sz hsz requests _ hex
    exact ⟨utc, loc, hs, cbGetBroadcastTime_some sz _ query utc loc hsz hq hs hu hl⟩
  refine ⟨⟨?_, ?_⟩, hsome⟩
  · intro hfail r hr
    by_contra hne
    obtain ⟨utc, loc, _, hrep⟩ := hsome ⟨r, hr, by simpa using hne⟩
    rw [hrep] at hfail
    simp only [Option.some.injEq] at hfail
    have h2 : (broadcastTimeReply utc loc).get "returnValue" = JValue.bool true := rfl
    rw [hfail] at h2
    exact absurd h2 (by decide)
  · intro hall
    rw [afterSets_invalid sz requests _ hall]
    exact cbGetBroadcastTime_none sz _ query hq rfl

/-- C9: on a platform whose `time_t` has 4 or 8 bytes, `toJValue` encodes a
`time_t` value as the integer of the same width and `toTimeT` reads it back:
both are the identity on every representable value, so nothing is reduced
modulo 2^32 on a 64-bit platform. -/
theorem wire_conversion_lossless (sz : Nat) (t : Int) (hsz : sz = 4 ∨ sz = 8)
    (ht : isTimeT sz t) :
    toJValue sz t = JValue.num (staticCast (8 * sz) t) ∧ toJValue sz t = JValue.num t ∧
      toTimeT sz (JValue.num t) = t ∧ toTimeT sz (toJValue sz t) = t := by
  have h1 := toJValue_of_isTimeT sz t hsz ht
  have h2 := toTimeT_num_of_isTimeT sz t hsz ht
  refine ⟨?_, h1, h2, by rw [h1]; exact h2⟩
  rw [h1, staticCast_of_isTimeT sz t hsz ht]

theorem holding_typed (flag : Bool) (utc loc : Int) (hu : isTimeT 8 utc) (hl : isTimeT 8 loc) :
    ∀ p, (TimePrefsHandler.holding flag utc loc).m_broadcastTime.get = some p →
      isTimeT 8 p.1 ∧ isTimeT 8 p.2 := by
  intro p hp
  have e : p = (utc, loc) := by
    have h2 : some (utc, loc) = some p := hp
    exact (Option.some.inj h2).symm
  subst e
  exact ⟨hu, hl⟩

theorem fresh_typed (flag : Bool) :
    ∀ p, (TimePrefsHandler.fresh flag).m_broadcastTime.get = some p →
      isTimeT 8 p.1 ∧ isTimeT 8 p.2 := by
  intro p hp
  have h2 : (none : Option (Int × Int)) = some p := hp
  cases h2

/-- Values of the library model in zones with a transition at 1000000000.  A
wall-clock time that occurs twice is resolved by the offset at the first
probe: in a fresh process to the second occurrence east of UTC and to the
first occurrence west of UTC, after an earlier conversion to the occurrence
with the offset kept.  A wall-clock time in a gap is moved by the width of the
gap.  At the last second that has a breakdown a rule-string zone west of UTC
has no local time for the instant after, a zone file has. -/
theorem mktime_model_values :
    toUtc (libcOf 8 (Zone.fallBack 1000000000) 0) 1000007199 = 1000003599 ∧
      toUtc (libcOf 8 (Zone.fallBack 1000000000) 7200) 1000003700 = 999996500 ∧
      toUtc (libcOf 8 (Zone.fallBackWest 1000000000) 0) 999985599 = 999999999 ∧
      toUtc (libcOf 8 (Zone.springForward 1000000000) 0) 1000005000 = 1000001400 ∧
      toLocal (libcOf 8 (Zone.fixed (-3600)) 0) 67768036191676800 = -1 ∧
      toLocal (libcOf 8 (Zone.fallBackWest 1000000000) 0) 67768036191676800
        = 67768036191658800 := by
  decide

/-- C1 (witness): the amended statement at the flag false, the pair (1000, 2000)
and a zone one hour east of UTC. -/
theorem effective_broadcast_branch_witness :
    schemaEmptyObject JObject.empty = true ∧
      (TimePrefsHandler.holding false 1000 2000).isSystemTimeBroadcastEffective = false ∧
      (TimePrefsHandler.holding false 1000 2000).m_broadcastTime.get = some (1000, 2000) ∧
      WellTyped 8 eastLibc (TimePrefsHandler.holding false 1000 2000) ∧
      cbGetEffectiveBroadcastTime 8 eastLibc 5000 (TimePrefsHandler.holding false 1000 2000)
        JObject.empty = some (effectiveTimeReply (toUtc eastLibc 2000) 2000) :=
  ⟨rfl, rfl, rfl,
    libcOf_wellTyped 8 (Or.inr rfl) (Zone.fixed 3600) 0 _ (holding_typed false 1000 2000 (by decide) (by decide)),
    (effective_broadcast_branch 8 eastLibc 5000 (TimePrefsHandler.holding false 1000 2000)
      JObject.empty 1000 2000 rfl rfl rfl
      (libcOf_wellTyped 8 (Or.inr rfl) (Zone.fixed 3600) 0 _
        (holding_typed false 1000 2000 (by decide) (by decide)))).1 (by decide)⟩

/-- C2 (witness): the amended statement at the flag true, the pair (1000, 2000)
and the clock value 5000. -/
theorem effective_system_clock_branch_witness :
    schemaEmptyObject JObject.empty = true ∧
      ((TimePrefsHandler.holding true 1000 2000).isSystemTimeBroadcastEffective = true ∨
        (TimePrefsHandler.holding true 1000 2000).m_broadcastTime.get = none) ∧
      WellTyped 8 eastLibc (TimePrefsHandler.holding true 1000 2000) ∧ isTimeT 8 5000 ∧
      effectiveTime eastLibc 5000 (TimePrefsHandler.holding true 1000 2000)
        = (5000, toLocal eastLibc 5000) :=
  ⟨rfl, Or.inl rfl,
    libcOf_wellTyped 8 (Or.inr rfl) (Zone.fixed 3600) 0 _ (holding_typed true 1000 2000 (by decide) (by decide)),
    by decide,
    (effective_system_clock_branch 8 eastLibc 5000 (TimePrefsHandler.holding true 1000 2000)
      JObject.empty rfl (Or.inl rfl)
      (libcOf_wellTyped 8 (Or.inr rfl) (Zone.fixed 3600) 0 _
        (holding_typed true 1000 2000 (by decide) (by decide))) (by decide)).1⟩

/-- C5 (witness): set(7, 9), then set(1000, 2000), then get gives (1000, 2000). -/
theorem get_after_set_witness :
    ((8 : Nat) = 4 ∨ (8 : Nat) = 8) ∧ isTimeT 8 1000 ∧ isTimeT 8 2000 ∧
      schemaSetBroadcastTime (setRequest 1000 2000) = true ∧
      (setRequest 1000 2000).get "utc" = JValue.num 1000 ∧
      (setRequest 1000 2000).get "local" = JValue.num 2000 ∧
      schemaEmptyObject JObject.empty = true ∧
      cbGetBroadcastTime 8
          (afterSets 8 (TimePrefsHandler.fresh true) ([setRequest 7 9] ++ [setRequest 1000 2000]))
          JObject.empty
        = some (broadcastTimeReply 1000 2000) :=
  ⟨by decide, by decide, by decide, by decide, by decide, by decide, by decide,
    (get_after_set 8 (TimePrefsHandler.fresh true) [setRequest 7 9] (setRequest 1000 2000)
      JObject.empty 1000 2000 (by decide) (by decide) (by decide) (by decide) (by decide)
      (by decide) (by decide)).2⟩

/-- C6 (witness): after two requests that fail validation, the empty object and
an object without `local`, the reply is the failure; after a valid request
the reply is the success with the stored pair. -/
theorem get_not_available_iff_witness :
    ((8 : Nat) = 4 ∨ (8 : Nat) = 8) ∧ schemaEmptyObject JObject.empty = true ∧
      (∀ r ∈ [JObject.empty, ⟨[("utc", JValue.num 5)]⟩], schemaSetBroadcastTime r = false) ∧
      cbGetBroadcastTime 8
          (afterSets 8 (TimePrefsHandler.fresh false)
            [JObject.empty, ⟨[("utc", JValue.num 5)]⟩]) JObject.empty
        = some (errorReply (-2) "No information available") ∧
      ∃ utc loc,
        (afterSets 8 (TimePrefsHandler.fresh false)
            [JObject.empty, setRequest 7 9]).m_broadcastTime.get = some (utc, loc) ∧
        cbGetBroadcastTime 8
            (afterSets 8 (TimePrefsHandler.fresh false) [JObject.empty, setRequest 7 9])
            JObject.empty
          = some (broadcastTimeReply utc loc) :=
  ⟨by decide, by decide, by decide,
    (get_not_available_iff 8 false [JObject.empty, ⟨[("utc", JValue.num 5)]⟩] JObject.empty
      (by decide) (by decide)).1.2 (by decide),
    (get_not_available_iff 8 false [JObject.empty, setRequest 7 9] JObject.empty
      (by decide) (by decide)).2 ⟨setRequest 7 9, by decide, by decide⟩⟩

/-- C7 (witness): with the flag false and a stored local value -1 the reply is the
failure. -/
theorem effective_reply_guards_local_witness :
    schemaEmptyObject JObject.empty = true ∧
      WellTyped 8 eastLibc (TimePrefsHandler.holding false 1000 (-1)) ∧ isTimeT 8 5000 ∧
      (effectiveTime eastLibc 5000 (TimePrefsHandler.holding false 1000 (-1))).2 = -1 ∧
      cbGetEffectiveBroadcastTime 8 eastLibc 5000 (TimePrefsHandler.holding false 1000 (-1))
        JObject.empty = some (errorReply (-1) "Failed to get localtime") :=
  ⟨rfl,
    libcOf_wellTyped 8 (Or.inr rfl) (Zone.fixed 3600) 0 _ (holding_typed false 1000 (-1) (by decide) (by decide)),
    by decide, by decide,
    (effective_reply_guards_local 8 eastLibc 5000 (TimePrefsHandler.holding false 1000 (-1))
      JObject.empty rfl
      (libcOf_wellTyped 8 (Or.inr rfl) (Zone.fixed 3600) 0 _
        (holding_typed false 1000 (-1) (by decide) (by decide))) (by decide)).1 (by decide)⟩

/-- C8 (witness): the flag true, the store empty, the clock value 5000. -/
theorem effective_empty_store_witness :
    schemaEmptyObject JObject.empty = true ∧
      (TimePrefsHandler.fresh true).m_broadcastTime.get = none ∧
      WellTyped 8 eastLibc (TimePrefsHandler.fresh true) ∧ isTimeT 8 5000 ∧
      toLocal eastLibc 5000 ≠ -1 ∧
      cbGetEffectiveBroadcastTime 8 eastLibc 5000 (TimePrefsHandler.fresh true) JObject.empty
        = some (effectiveTimeReply 5000 (toLocal eastLibc 5000)) :=
  ⟨rfl, rfl, libcOf_wellTyped 8 (Or.inr rfl) (Zone.fixed 3600) 0 _ (fresh_typed true), by decide, by decide,
    (effective_empty_store 8 eastLibc 5000 (TimePrefsHandler.fresh true) JObject.empty rfl rfl
      (libcOf_wellTyped 8 (Or.inr rfl) (Zone.fixed 3600) 0 _ (fresh_typed true)) (by decide)).2.1 (by decide)⟩

/-- C9 (witness): on a 64-bit platform the value 2^32 + 5 goes out and comes back
unchanged. -/
theorem wire_conversion_lossless_witness :
    ((8 : Nat) = 4 ∨ (8 : Nat) = 8) ∧ isTimeT 8 4294967301 ∧
      (toJValue 8 4294967301 = JValue.num (staticCast (8 * 8) 4294967301) ∧
        toJValue 8 4294967301 = JValue.num 4294967301 ∧
        toTimeT 8 (JValue.num 4294967301) = 4294967301 ∧
        toTimeT 8 (toJValue 8 4294967301) = 4294967301) :=
  ⟨by decide, by decide, wire_conversion_lossless 8 4294967301 (by decide) (by decide)⟩

end BroadcastTimeHandler
